import Mathlib

/-!
Verification development for the agentctl etcd aggregation layer of
jozef-slezak/vpp-agent and the typed proto broker decorator of cn-infra.

The definitions mirror the Go sources `cmd/agentctl/utils/db_utils.go` and
`vendor/github.com/ligato/cn-infra/db/keyval/kvproto/proto_broker_impl.go`.
Go maps become association lists with Go zero-value-on-miss semantics,
multi-value returns become tuples or result structures, and the two effects
of the code (reads issued to the underlying byte store, and warning lines
printed with fmt.Printf) are made explicit as threaded state so that they
can be reasoned about.
-/

/-- Byte sequences handled by the underlying byte store. -/
abbrev Bytes := List Nat

/-- Domain message payloads (interfaces, bridge domains, routes, statuses, ...)
are opaque serializable values to this layer; modelled as a number. -/
abbrev Payload := Nat

/-- The closed set of record shapes the aggregator decodes into. Each shape
corresponds to one proto message type used as a decode target in db_utils.go. -/
inductive MsgShape where
  | ifCfg
  | ifSt
  | ifErr
  | bdCfg
  | bdSt
  | bdErr
  | fib
  | xconn
  | routes
  | agentSts
deriving DecidableEq

/-- Result of a raw byte-store GetValue: data, found, revision, error,
mirroring the four-value return of keyval.BytesBroker.GetValue. -/
structure RawGetResult where
  data : Bytes
  found : Bool
  rev : Int
  err : Option String
deriving DecidableEq

/-- A byte broker together with a serializer, the pair wrapped by the kvproto
decorator (ProtoWrapper / protoBroker hold a keyval.BytesBroker and a
keyval.Serializer). `rawGet` and `rawPut` model the byte store; `decode` and
`encode` model Serializer.Unmarshal (per target message shape) and
Serializer.Marshal. -/
structure ProtoDb where
  rawGet : String → RawGetResult
  rawPut : String → Bytes → Option String
  decode : MsgShape → Bytes → Except String Payload
  encode : Payload → Except String Bytes

/-- Result of the typed GetValue: the (possibly filled) target object, found,
revision, error — mirroring Go filling `reqObj` in place and returning
(found, revision, err). -/
structure GetRes where
  obj : Payload
  found : Bool
  rev : Int
  err : Option String
deriving DecidableEq

/-- getValueProtoInternal of proto_broker_impl.go: fetch raw bytes from the
byte store, return found=false with no error when absent, otherwise unmarshal
into the target object. `obj` is the caller's target message (filled only on
successful decode); `gets` logs the keys passed to the byte store. -/
def getValueProtoInternal (db : ProtoDb) (shape : MsgShape) (key : String)
    (obj : Payload) (gets : List String) : GetRes × List String :=
  let r := db.rawGet key
  let gets2 := gets ++ [key]
  match r.err with
  | some e => (⟨obj, false, 0, some e⟩, gets2)
  | none =>
    if r.found then
      match db.decode shape r.data with
      | Except.error e => (⟨obj, false, 0, some e⟩, gets2)
      | Except.ok m => (⟨m, true, r.rev, none⟩, gets2)
    else (⟨obj, false, 0, none⟩, gets2)

/-- putProtoInternal of proto_broker_impl.go: marshal the value, fail on a
marshal error, otherwise hand the bytes to the byte store. The second
component logs the writes issued to the byte store. The byte store's own
error result is produced and then discarded, exactly as in the source where
the return value of `broker.Put(key, binData, opts...)` is ignored. -/
def putProtoInternal (db : ProtoDb) (key : String) (value : Payload)
    (puts : List (String × Bytes)) : Option String × List (String × Bytes) :=
  match db.encode value with
  | Except.error e => (some e, puts)
  | Except.ok binData =>
    let _ := db.rawPut key binData
    (none, puts ++ [(key, binData)])

/-- ProtoWrapper.Put of proto_broker_impl.go: plain delegation to
putProtoInternal with the wrapper's broker and serializer. -/
def ProtoWrapperPut (db : ProtoDb) (key : String) (value : Payload)
    (puts : List (String × Bytes)) : Option String × List (String × Bytes) :=
  putProtoInternal db key value puts

/-- Does `sub` occur at the start of `s`? (char-list version, structural). -/
def startsWithSeg : List Char → List Char → Bool
  | [], _ => true
  | _ :: _, [] => false
  | a :: as2, b :: bs => a == b && startsWithSeg as2 bs

/-- Does `sub` occur anywhere in `s`? Mirrors Go strings.Contains on the
underlying char lists (the empty pattern occurs in every string). -/
def hasSub : List Char → List Char → Bool
  | [], sub => startsWithSeg sub []
  | c :: cs, sub => startsWithSeg sub (c :: cs) || hasSub cs sub

/-- Go strings.Contains(s, sub). -/
def strContains (s sub : String) : Bool :=
  hasSub s.toList sub.toList

/-- Split a char list on the slash separator, accumulating the current
segment in reverse; mirrors Go strings.Split(key, "/"). -/
def splitSegs : List Char → List Char → List String
  | [], cur => [String.mk cur.reverse]
  | c :: rest, cur =>
    if c = '/' then String.mk cur.reverse :: splitSegs rest []
    else splitSegs rest (c :: cur)

/-- Split a key into its slash-delimited segments. -/
def splitKey (key : String) : List String :=
  splitSegs key.toList []

/-- Record-type marker for interface configuration keys
(interfaces.InterfacePrefix in the source; renamed here). -/
def ifConfigMarker : String := "if-cfg"

/-- Record-type marker for interface operational-state keys
(interfaces.IfStatePrefix in the source; renamed here). -/
def ifStateMarker : String := "if-state"

/-- Record-type marker for interface error-record keys
(interfaces.IfErrorPrefix in the source; renamed here). -/
def ifErrorMarker : String := "if-error"

/-- Record-type marker for bridge-domain configuration keys
(l2.BdPrefix in the source; renamed here). -/
def bdConfigMarker : String := "bd-cfg"

/-- Record-type marker for bridge-domain operational-state keys
(l2.BdStatePrefix in the source; renamed here). -/
def bdStateMarker : String := "bd-state"

/-- Record-type marker for bridge-domain error-record keys
(l2.BdErrPrefix in the source; renamed here). -/
def bdErrorMarker : String := "bd-error"

/-- Record-type marker for FIB table entry keys
(l2.FIBPrefix in the source; renamed here). -/
def fibMarker : String := "l2-fib"

/-- Record-type marker for cross-connect keys
(l2.XconnectPrefix in the source; renamed here). -/
def xconnectMarker : String := "l2-xconnect"

/-- Record-type marker for static-route keys
(l3.RoutesPrefix in the source; renamed here). -/
def routesMarker : String := "vrf-routes"

/-- The distinguished status-namespace marker
(status.StatusPrefix in the source; renamed here). -/
def statusMarker : String := "status-check"

/-- The closed set of known record-type markers (the status marker is
discriminated separately, before the record-type dispatch). -/
def knownMarkers : List String :=
  [ifConfigMarker, ifStateMarker, ifErrorMarker, bdConfigMarker,
   bdStateMarker, bdErrorMarker, fibMarker, xconnectMarker, routesMarker]

/-- Modelled from the spec: the Key Classifier `ParseKey`, whose definition is
outside the provided sources (only its caller db_utils.go is available).
Per the spec (sections 4.3 and 6) a key is a slash-delimited path
`<label>/<record-type-marker>/<parameter-0>/<parameter-1>/...`: the region
before the marker is the entity label and the region after it is the ordered
parameter list; a key carrying the distinguished status marker is classified
into the status namespace (the fourth component equals `statusMarker`);
unrecognized markers classify with an empty record-type tag. Returns
(label, dataType, params, plugStatCfgRev) as in the source call sites. -/
def ParseKey (key : String) : String × String × List String × String :=
  match splitKey key with
  | [] => ("", "", [], "")
  | label :: rest =>
    match rest with
    | [] => (label, "", [], "")
    | marker :: params =>
      if marker = statusMarker then (label, "", params, statusMarker)
      else if knownMarkers.contains marker then (label, marker, params, "")
      else (label, "", params, "")

/-- Association-list lookup with Go map semantics: first binding wins,
none when absent. -/
def alGet {α : Type} : List (String × α) → String → Option α
  | [], _ => none
  | (k2, v) :: rest, k => if k2 = k then some v else alGet rest k

/-- Go map read: the zero value `d` is produced for a missing key. -/
def alGetD {α : Type} (m : List (String × α)) (k : String) (d : α) : α :=
  (alGet m k).getD d

/-- Go map write: replace the binding in place, or append a new one. -/
def alPut {α : Type} : List (String × α) → String → α → List (String × α)
  | [], k, v => [(k, v)]
  | (k2, v2) :: rest, k, v =>
    if k2 = k then (k, v) :: rest else (k2, v2) :: alPut rest k v

/-- VppMetaData of db_utils.go: the etcd revision and key of a record. -/
structure VppMetaData where
  rev : Int
  key : String
deriving DecidableEq

/-- IfConfigWithMD: an interface configuration record plus metadata. -/
structure IfConfigWithMD where
  metadata : VppMetaData
  interface : Payload
deriving DecidableEq

/-- IfStateWithMD: an interface state record plus metadata. -/
structure IfStateWithMD where
  metadata : VppMetaData
  interfaceState : Payload
deriving DecidableEq

/-- InterfaceWithMD: the two independently-optional slots for one interface. -/
structure InterfaceWithMD where
  config : Option IfConfigWithMD
  state : Option IfStateWithMD
deriving DecidableEq

/-- InterfaceErrorWithMD: metadata plus the accumulated interface error list. -/
structure InterfaceErrorWithMD where
  md : VppMetaData
  interfaceErrorList : List Payload
deriving DecidableEq

/-- BridgeDomainErrorWithMD: metadata plus the accumulated bridge-domain
error list. -/
structure BridgeDomainErrorWithMD where
  md : VppMetaData
  bdErrorList : List Payload
deriving DecidableEq

/-- BdConfigWithMD: a bridge-domain configuration record plus metadata. -/
structure BdConfigWithMD where
  metadata : VppMetaData
  bridgeDomain : Payload
deriving DecidableEq

/-- BdStateWithMD: a bridge-domain state record plus metadata. -/
structure BdStateWithMD where
  metadata : VppMetaData
  bridgeDomainState : Payload
deriving DecidableEq

/-- BdWithMD: the two independently-optional slots for one bridge domain. -/
structure BdWithMD where
  config : Option BdConfigWithMD
  state : Option BdStateWithMD
deriving DecidableEq

/-- FibTableWithMD: metadata plus the accumulated FIB table. -/
structure FibTableWithMD where
  md : VppMetaData
  fibTable : List Payload
deriving DecidableEq

/-- XconnectWithMD: a cross-connect record plus metadata. -/
structure XconnectWithMD where
  md : VppMetaData
  xconnect : Payload
deriving DecidableEq

/-- StaticRoutesWithMD: a static-routes record plus metadata. -/
structure StaticRoutesWithMD where
  md : VppMetaData
  staticRoutes : Payload
deriving DecidableEq

/-- VppStatusWithMD: an agent status record plus metadata. -/
structure VppStatusWithMD where
  md : VppMetaData
  agentStatus : Payload
deriving DecidableEq

/-- VppData of db_utils.go: all record collections for one VPP label. -/
structure VppData where
  interfaces : List (String × InterfaceWithMD)
  interfaceErrors : List (String × InterfaceErrorWithMD)
  bridgeDomains : List (String × BdWithMD)
  bridgeDomainErrors : List (String × BridgeDomainErrorWithMD)
  fibTableEntries : FibTableWithMD
  xConnectPairs : List (String × XconnectWithMD)
  staticRoutes : StaticRoutesWithMD
  status : List (String × VppStatusWithMD)
  showEtcd : Bool
deriving DecidableEq

/-- EtcdDump of db_utils.go: the temporary storage mapping a label to its
VppData record. -/
abbrev EtcdDump := List (String × VppData)

/-- The default identifier for a status record carrying no agent parameter
(stsIDAgent in the source). -/
def stsIDAgent : String := "Agent"

/-- newVppDataRecord of db_utils.go: the empty per-label record. -/
def newVppDataRecord : VppData :=
  { interfaces := []
    interfaceErrors := []
    bridgeDomains := []
    bridgeDomainErrors := []
    fibTableEntries := ⟨⟨0, ""⟩, []⟩
    xConnectPairs := []
    staticRoutes := ⟨⟨0, ""⟩, 0⟩
    status := []
    showEtcd := false }

/-- CreateEmptyRecord of db_utils.go: parse the key for its label and store a
fresh empty record under that label. -/
def CreateEmptyRecord (ed : EtcdDump) (key : String) : EtcdDump :=
  let label := (ParseKey key).1
  alPut ed label newVppDataRecord

/-- isItemAllowed of db_utils.go: an empty filter admits everything; a
non-empty filter admits an item containing any filter entry as a substring. -/
def isItemAllowed (item : String) (filter : List String) : Bool :=
  if filter.isEmpty then true
  else filter.any (fun f => strContains item f)

/-- The observable effects threaded through the aggregation pass: the keys
read from the store (db.GetValue calls) and the warning lines printed. -/
structure Trace where
  gets : List String
  warnings : List String
deriving DecidableEq

/-- readDataFromDb of db_utils.go: one typed GetValue; a broker error is
wrapped into a new error with the key in its text; a missing key prints a
warning and is not an error. -/
def readDataFromDb (db : ProtoDb) (key : String) (shape : MsgShape)
    (obj : Payload) (tr : Trace) : GetRes × Trace :=
  let p := getValueProtoInternal db shape key obj tr.gets
  let r := p.1
  match r.err with
  | some e =>
    (⟨r.obj, false, r.rev,
      some ("Could not read from database, Key:" ++ key ++ ", error" ++ e)⟩,
     ⟨p.2, tr.warnings⟩)
  | none =>
    if r.found then (⟨r.obj, r.found, r.rev, none⟩, ⟨p.2, tr.warnings⟩)
    else
      (⟨r.obj, r.found, r.rev, none⟩,
       ⟨p.2, tr.warnings ++ ["WARNING: data for Key " ++ key ++ " not found"]⟩)

/-- Result of one per-type decoder: the updated VppData, the returned error,
and the effect trace. -/
structure VdRes where
  vd : VppData
  err : Option String
  tr : Trace
deriving DecidableEq

/-- readIfConfigFromDb of db_utils.go: an empty parameter list is a malformed
key (warn, no store access); otherwise read the interface configuration and,
when found without error, write the Config slot of the named interface while
keeping the sibling State slot. -/
def readIfConfigFromDb (db : ProtoDb) (vd : VppData) (key : String)
    (parms : List String) (tr : Trace) : VdRes :=
  match parms with
  | [] =>
    ⟨vd, none,
     ⟨tr.gets, tr.warnings ++ ["WARNING: Invalid interface Key " ++ key]⟩⟩
  | p0 :: _ =>
    let p := readDataFromDb db key MsgShape.ifCfg 0 tr
    let r := p.1
    if r.found && r.err.isNone then
      let entry : InterfaceWithMD :=
        ⟨some ⟨⟨r.rev, key⟩, r.obj⟩, (alGetD vd.interfaces p0 ⟨none, none⟩).state⟩
      ⟨{ vd with interfaces := alPut vd.interfaces p0 entry }, r.err, p.2⟩
    else ⟨vd, r.err, p.2⟩

/-- readIfStateFromDb of db_utils.go: symmetric to readIfConfigFromDb, writing
the State slot and keeping the sibling Config slot. -/
def readIfStateFromDb (db : ProtoDb) (vd : VppData) (key : String)
    (parms : List String) (tr : Trace) : VdRes :=
  match parms with
  | [] =>
    ⟨vd, none,
     ⟨tr.gets, tr.warnings ++ ["WARNING: Invalid ifstate Key " ++ key]⟩⟩
  | p0 :: _ =>
    let p := readDataFromDb db key MsgShape.ifSt 0 tr
    let r := p.1
    if r.found && r.err.isNone then
      let entry : InterfaceWithMD :=
        ⟨(alGetD vd.interfaces p0 ⟨none, none⟩).config, some ⟨⟨r.rev, key⟩, r.obj⟩⟩
      ⟨{ vd with interfaces := alPut vd.interfaces p0 entry }, r.err, p.2⟩
    else ⟨vd, r.err, p.2⟩

/-- readInterfaceErrorFromDb of db_utils.go: append the decoded error record
to the named interface error list; the list is never trimmed. -/
def readInterfaceErrorFromDb (db : ProtoDb) (vd : VppData) (key : String)
    (params : List String) (tr : Trace) : VdRes :=
  match params with
  | [] =>
    ⟨vd, none,
     ⟨tr.gets, tr.warnings ++ ["WARNING: Invalid interface Key " ++ key]⟩⟩
  | p0 :: _ =>
    let p := readDataFromDb db key MsgShape.ifErr 0 tr
    let r := p.1
    if r.found && r.err.isNone then
      let lst :=
        (alGetD vd.interfaceErrors p0 ⟨⟨0, ""⟩, []⟩).interfaceErrorList ++ [r.obj]
      ⟨{ vd with interfaceErrors := alPut vd.interfaceErrors p0 ⟨⟨r.rev, key⟩, lst⟩ },
       r.err, p.2⟩
    else ⟨vd, r.err, p.2⟩

/-- readBdConfigFromDb of db_utils.go: write the Config slot of the named
bridge domain, keeping the sibling State slot. -/
def readBdConfigFromDb (db : ProtoDb) (vd : VppData) (key : String)
    (parms : List String) (tr : Trace) : VdRes :=
  match parms with
  | [] =>
    ⟨vd, none,
     ⟨tr.gets, tr.warnings ++ ["WARNING: Invalid bridge domain config Key " ++ key]⟩⟩
  | p0 :: _ =>
    let p := readDataFromDb db key MsgShape.bdCfg 0 tr
    let r := p.1
    if r.found && r.err.isNone then
      let entry : BdWithMD :=
        ⟨some ⟨⟨r.rev, key⟩, r.obj⟩, (alGetD vd.bridgeDomains p0 ⟨none, none⟩).state⟩
      ⟨{ vd with bridgeDomains := alPut vd.bridgeDomains p0 entry }, r.err, p.2⟩
    else ⟨vd, r.err, p.2⟩

/-- readBdStateFromDb of db_utils.go: write the State slot of the named bridge
domain, keeping the sibling Config slot. -/
def readBdStateFromDb (db : ProtoDb) (vd : VppData) (key : String)
    (parms : List String) (tr : Trace) : VdRes :=
  match parms with
  | [] =>
    ⟨vd, none,
     ⟨tr.gets, tr.warnings ++ ["WARNING: Invalid bridge domain state Key " ++ key]⟩⟩
  | p0 :: _ =>
    let p := readDataFromDb db key MsgShape.bdSt 0 tr
    let r := p.1
    if r.found && r.err.isNone then
      let entry : BdWithMD :=
        ⟨(alGetD vd.bridgeDomains p0 ⟨none, none⟩).config, some ⟨⟨r.rev, key⟩, r.obj⟩⟩
      ⟨{ vd with bridgeDomains := alPut vd.bridgeDomains p0 entry }, r.err, p.2⟩
    else ⟨vd, r.err, p.2⟩

/-- readBdErrorFromDb of db_utils.go: append the decoded error record to the
named bridge-domain error list; the list is never trimmed. -/
def readBdErrorFromDb (db : ProtoDb) (vd : VppData) (key : String)
    (params : List String) (tr : Trace) : VdRes :=
  match params with
  | [] =>
    ⟨vd, none,
     ⟨tr.gets, tr.warnings ++ ["WARNING: Invalid interface Key " ++ key]⟩⟩
  | p0 :: _ =>
    let p := readDataFromDb db key MsgShape.bdErr 0 tr
    let r := p.1
    if r.found && r.err.isNone then
      let lst := (alGetD vd.bridgeDomainErrors p0 ⟨⟨0, ""⟩, []⟩).bdErrorList ++ [r.obj]
      let m2 := alPut vd.bridgeDomainErrors p0 ⟨⟨r.rev, key⟩, lst⟩
      ⟨{ vd with bridgeDomainErrors := m2 }, r.err, p.2⟩
    else ⟨vd, r.err, p.2⟩

/-- readFibFromDb of db_utils.go: append the decoded FIB entry to the single
FIB table of the record. -/
def readFibFromDb (db : ProtoDb) (vd : VppData) (key : String)
    (parms : List String) (tr : Trace) : VdRes :=
  match parms with
  | [] =>
    ⟨vd, none, ⟨tr.gets, tr.warnings ++ ["WARNING: Invalid FIB Key " ++ key]⟩⟩
  | _ :: _ =>
    let p := readDataFromDb db key MsgShape.fib 0 tr
    let r := p.1
    if r.found && r.err.isNone then
      ⟨{ vd with fibTableEntries :=
           ⟨⟨r.rev, key⟩, vd.fibTableEntries.fibTable ++ [r.obj]⟩ },
       r.err, p.2⟩
    else ⟨vd, r.err, p.2⟩

/-- readXconnectFromDb of db_utils.go: overwrite the named cross-connect
entry. -/
def readXconnectFromDb (db : ProtoDb) (vd : VppData) (key : String)
    (parms : List String) (tr : Trace) : VdRes :=
  match parms with
  | [] =>
    ⟨vd, none,
     ⟨tr.gets, tr.warnings ++ ["WARNING: Invalid cross-connect Key " ++ key]⟩⟩
  | p0 :: _ =>
    let p := readDataFromDb db key MsgShape.xconn 0 tr
    let r := p.1
    if r.found && r.err.isNone then
      ⟨{ vd with xConnectPairs := alPut vd.xConnectPairs p0 ⟨⟨r.rev, key⟩, r.obj⟩ },
       r.err, p.2⟩
    else ⟨vd, r.err, p.2⟩

/-- readRoutesFromDb of db_utils.go: overwrite the single static-routes
record; this decoder takes no parameters. -/
def readRoutesFromDb (db : ProtoDb) (vd : VppData) (key : String)
    (tr : Trace) : VdRes :=
  let p := readDataFromDb db key MsgShape.routes 0 tr
  let r := p.1
  if r.found && r.err.isNone then
    ⟨{ vd with staticRoutes := ⟨⟨r.rev, key⟩, r.obj⟩ }, r.err, p.2⟩
  else ⟨vd, r.err, p.2⟩

/-- readStatusFromDb of db_utils.go: the status identifier is the first key
parameter when present and the literal stsIDAgent otherwise; a found,
decodable status record is stored under that identifier. -/
def readStatusFromDb (db : ProtoDb) (vd : VppData) (key : String)
    (parms : List String) (tr : Trace) : VdRes :=
  let id := match parms with
    | [] => stsIDAgent
    | p0 :: _ => p0
  let p := readDataFromDb db key MsgShape.agentSts 0 tr
  let r := p.1
  if r.found && r.err.isNone then
    ⟨{ vd with status := alPut vd.status id ⟨⟨r.rev, key⟩, r.obj⟩ }, r.err, p.2⟩
  else ⟨vd, r.err, p.2⟩

/-- Result of ReadDataFromDb: the updated dump, the (found, err) return pair
of the source function, and the effect trace. -/
structure IngestRes where
  dump : EtcdDump
  found : Bool
  err : Option String
  tr : Trace
deriving DecidableEq

/-- ReadDataFromDb of db_utils.go: parse the key; apply the label filter
first (a mismatch returns found=false before any store access); status-marked
keys go to the status decoder regardless of data type; otherwise apply the
record-type filter and dispatch on the data type, an unknown data type
leaving the dump untouched while still returning found=true. -/
def ReadDataFromDb (ed : EtcdDump) (db : ProtoDb) (key : String)
    (labelFilter typeFilter : List String) (tr : Trace) : IngestRes :=
  let q := ParseKey key
  let label := q.1
  let dataType := q.2.1
  let params := q.2.2.1
  let plugStatCfgRev := q.2.2.2
  if isItemAllowed label labelFilter = false then ⟨ed, false, none, tr⟩
  else if plugStatCfgRev = statusMarker then
    let r := readStatusFromDb db (alGetD ed label newVppDataRecord) key params tr
    ⟨alPut ed label r.vd, true, r.err, r.tr⟩
  else if isItemAllowed dataType typeFilter = false then ⟨ed, false, none, tr⟩
  else if dataType = ifConfigMarker then
    let r := readIfConfigFromDb db (alGetD ed label newVppDataRecord) key params tr
    ⟨alPut ed label r.vd, true, r.err, r.tr⟩
  else if dataType = ifStateMarker then
    let r := readIfStateFromDb db (alGetD ed label newVppDataRecord) key params tr
    ⟨alPut ed label r.vd, true, r.err, r.tr⟩
  else if dataType = ifErrorMarker then
    let r := readInterfaceErrorFromDb db (alGetD ed label newVppDataRecord) key params tr
    ⟨alPut ed label r.vd, true, r.err, r.tr⟩
  else if dataType = bdConfigMarker then
    let r := readBdConfigFromDb db (alGetD ed label newVppDataRecord) key params tr
    ⟨alPut ed label r.vd, true, r.err, r.tr⟩
  else if dataType = bdStateMarker then
    let r := readBdStateFromDb db (alGetD ed label newVppDataRecord) key params tr
    ⟨alPut ed label r.vd, true, r.err, r.tr⟩
  else if dataType = bdErrorMarker then
    let r := readBdErrorFromDb db (alGetD ed label newVppDataRecord) key params tr
    ⟨alPut ed label r.vd, true, r.err, r.tr⟩
  else if dataType = fibMarker then
    let r := readFibFromDb db (alGetD ed label newVppDataRecord) key params tr
    ⟨alPut ed label r.vd, true, r.err, r.tr⟩
  else if dataType = xconnectMarker then
    let r := readXconnectFromDb db (alGetD ed label newVppDataRecord) key params tr
    ⟨alPut ed label r.vd, true, r.err, r.tr⟩
  else if dataType = routesMarker then
    let r := readRoutesFromDb db (alGetD ed label newVppDataRecord) key tr
    ⟨alPut ed label r.vd, true, r.err, r.tr⟩
  else ⟨ed, true, none, tr⟩

/-- DeleteDataFromDb of db_utils.go: the same two-stage filter as
ReadDataFromDb, then a store-side delete; the dump is never touched. The
boolean result of the store delete is modelled by `del`. -/
def DeleteDataFromDb (del : String → Bool × Option String) (key : String)
    (labelFilter typeFilter : List String) : Bool × Option String :=
  let q := ParseKey key
  if isItemAllowed q.1 labelFilter = false then (false, none)
  else if isItemAllowed q.2.1 typeFilter = false then (false, none)
  else del key

/-- A concrete store for witnesses: a handful of present keys, everything
else absent; bytes decode to their first byte; values encode to a one-byte
sequence. -/
def sampleDb : ProtoDb :=
  { rawGet := fun k =>
      if k = "agent1/if-cfg/eth0" then ⟨[7], true, 42, none⟩
      else if k = "agent1/if-state/eth0" then ⟨[8], true, 43, none⟩
      else if k = "agent1/if-error/eth0/1" then ⟨[9], true, 44, none⟩
      else if k = "agent1/if-error/eth0/2" then ⟨[10], true, 45, none⟩
      else if k = "agent1/bd-error/bd1/1" then ⟨[11], true, 46, none⟩
      else if k = "agent1/bd-error/bd1/2" then ⟨[12], true, 47, none⟩
      else if k = "agent1/status-check/north" then ⟨[13], true, 48, none⟩
      else if k = "agent1/status-check" then ⟨[14], true, 49, none⟩
      else ⟨[], false, 0, none⟩
    rawPut := fun _ _ => none
    decode := fun _ b => match b with
      | [] => Except.error "empty bytes"
      | x :: _ => Except.ok x
    encode := fun v => Except.ok [v] }

/-- A store whose write path always fails while reads and the serializer
work; used to exercise the write-error path of putProtoInternal. -/
def storeFailDb : ProtoDb :=
  { rawGet := fun _ => ⟨[], false, 0, none⟩
    rawPut := fun _ _ => some "store write failure"
    decode := fun _ b => match b with
      | [] => Except.error "empty bytes"
      | x :: _ => Except.ok x
    encode := fun v => Except.ok [v] }

/-- A serializer whose marshal always fails; used to exercise the encode
error path of putProtoInternal. -/
def encodeFailDb : ProtoDb :=
  { rawGet := fun _ => ⟨[], false, 0, none⟩
    rawPut := fun _ _ => none
    decode := fun _ _ => Except.error "unused"
    encode := fun _ => Except.error "marshal failure" }

/-- A store where every key is present but its bytes never unmarshal; used
to exercise the decode-failure path of the aggregation pass. -/
def decodeFailDb : ProtoDb :=
  { rawGet := fun _ => ⟨[3], true, 9, none⟩
    rawPut := fun _ _ => none
    decode := fun _ _ => Except.error "unmarshal failure"
    encode := fun v => Except.ok [v] }

/-- A bundle holding one interface configuration, for exercising
CreateEmptyRecord on a label that already accumulated data. -/
def populatedVd : VppData :=
  { newVppDataRecord with
    interfaces := [("eth0", ⟨some ⟨⟨42, "agent1/if-cfg/eth0"⟩, 7⟩, none⟩)] }

theorem alGet_alPut_self {α : Type} (m : List (String × α)) (k : String) (v : α) :
    alGet (alPut m k v) k = some v := by
  induction m with
  | nil => simp [alPut, alGet]
  | cons h t ih =>
    obtain ⟨k2, v2⟩ := h
    by_cases hk : k2 = k
    · simp [alPut, hk, alGet]
    · simp [alPut, hk, alGet, ih]

theorem alGet_alPut_ne {α : Type} (m : List (String × α)) (k k2 : String) (v : α)
    (h : k ≠ k2) : alGet (alPut m k v) k2 = alGet m k2 := by
  induction m with
  | nil => simp [alPut, alGet, h]
  | cons hd t ih =>
    obtain ⟨k3, v3⟩ := hd
    by_cases hk : k3 = k
    · simp [alPut, hk, alGet, h]
    · simp [alPut, hk, alGet, ih]

theorem alPut_alPut_self {α : Type} (m : List (String × α)) (k : String) (v w : α) :
    alPut (alPut m k v) k w = alPut m k w := by
  induction m with
  | nil => simp [alPut]
  | cons hd t ih =>
    obtain ⟨k3, v3⟩ := hd
    by_cases hk : k3 = k
    · simp [alPut, hk]
    · simp [alPut, hk, ih]

theorem alGetD_alPut_self {α : Type} (m : List (String × α)) (k : String) (v d : α) :
    alGetD (alPut m k v) k d = v := by
  simp [alGetD, alGet_alPut_self]

theorem alGetD_alPut_ne {α : Type} (m : List (String × α)) (k k2 : String) (v d : α)
    (h : k ≠ k2) : alGetD (alPut m k v) k2 d = alGetD m k2 d := by
  simp [alGetD, alGet_alPut_ne, h]

theorem alGetD_alPut_keep {α : Type} (m : List (String × α)) (k l : String) (d : α) :
    alGetD (alPut m k (alGetD m k d)) l d = alGetD m l d := by
  by_cases hl : k = l
  · subst hl; exact alGetD_alPut_self m k _ d
  · exact alGetD_alPut_ne m k l _ d hl

/-- C2: put marshals the message and then writes it to the byte store, and it
does fail with the serializer's error when marshaling fails; but the claim
that a store-level write failure is propagated to the caller of put is false:
putProtoInternal discards the byte store's error. This theorem evaluates the
code at the failing input: the serializer encodes the value, the byte store
rejects the write with an error, and put still returns no error (while the
marshal-failure path does return the marshal error and issues no write). -/
theorem C2_put_write_failure_dropped :
    putProtoInternal encodeFailDb "k" 7 [] = (some "marshal failure", [])
    ∧ storeFailDb.encode 7 = Except.ok [7]
    ∧ storeFailDb.rawPut "k" [7] = some "store write failure"
    ∧ putProtoInternal storeFailDb "k" 7 [] = (none, [("k", [7])])
    ∧ ProtoWrapperPut storeFailDb "k" 7 [] = (none, [("k", [7])]) := by
  refine ⟨rfl, rfl, rfl, rfl, rfl⟩

/-- C3 counterexample: for a key whose stored bytes fail to unmarshal, the
aggregation pass does not continue without error — ReadDataFromDb returns a
non-nil error (the wrapped decode failure), the same abort signal the claim
reserves for store-level failures. -/
theorem C3_decode_failure_error_counterexample :
    (ReadDataFromDb [] decodeFailDb "agent1/if-cfg/eth0" [] [] ⟨[], []⟩).err
      = some ("Could not read from database, Key:agent1/if-cfg/eth0, " ++
              "errorunmarshal failure") := by
  decide

/-- C5: a key whose label does not pass a non-empty label filter is rejected
before anything else: ReadDataFromDb returns found=false with no error, the
dump is untouched, and the trace is unchanged — no store get is issued — and
this holds for every key, status-namespace keys included, because the label
filter is evaluated before the status discrimination. -/
theorem C5_label_filter_short_circuit (ed : EtcdDump) (db : ProtoDb)
    (key : String) (labelFilter typeFilter : List String) (tr : Trace)
    (h : isItemAllowed (ParseKey key).1 labelFilter = false) :
    ReadDataFromDb ed db key labelFilter typeFilter tr = ⟨ed, false, none, tr⟩ := by
  simp [ReadDataFromDb, h]

/-- C5 witness: the label filter X rejects the label agentY of a normal key
and of a status-namespace key, with no store access in either case. -/
theorem C5_witness :
    isItemAllowed (ParseKey "agentY/if-cfg/eth0").1 ["X"] = false
    ∧ isItemAllowed (ParseKey "agentY/status-check").1 ["X"] = false
    ∧ ReadDataFromDb [] sampleDb "agentY/if-cfg/eth0" ["X"] [] ⟨[], []⟩
        = ⟨[], false, none, ⟨[], []⟩⟩
    ∧ ReadDataFromDb [] sampleDb "agentY/status-check" ["X"] [] ⟨[], []⟩
        = ⟨[], false, none, ⟨[], []⟩⟩ :=
  ⟨by decide, by decide,
   C5_label_filter_short_circuit [] sampleDb "agentY/if-cfg/eth0" ["X"] [] ⟨[], []⟩
     (by decide),
   C5_label_filter_short_circuit [] sampleDb "agentY/status-check" ["X"] [] ⟨[], []⟩
     (by decide)⟩

/-- C6 counterexample: CreateEmptyRecord invoked for a label whose bundle
already holds accumulated data does not leave that bundle unchanged — it
resets it, so the claim that the bundle is created empty only the first time
its label is seen fails on this input. -/
theorem C6_create_empty_overwrites_counterexample :
    CreateEmptyRecord [("agent1", populatedVd)] "agent1/if-cfg/eth0"
      ≠ [("agent1", populatedVd)] := by
  decide

/-- C6 amended: CreateEmptyRecord unconditionally installs a fresh empty
bundle under the key's label: running it twice equals running it once
(idempotent as an operation), and afterwards the label is always mapped to
the empty record — but previously accumulated contents of that label's
bundle are overwritten, not preserved. -/
theorem C6_create_empty_idempotent_reset (ed : EtcdDump) (key : String) :
    CreateEmptyRecord (CreateEmptyRecord ed key) key = CreateEmptyRecord ed key
    ∧ alGet (CreateEmptyRecord ed key) (ParseKey key).1 = some newVppDataRecord := by
  constructor
  · simp [CreateEmptyRecord, alPut_alPut_self]
  · simp [CreateEmptyRecord, alGet_alPut_self]

/-- C10: a non-status key that passes both filters but whose record-type tag
matches none of the known markers is a no-op with found=true: no store
access, no error, and the dump — bundles included — is returned exactly as
given, even when the key's label was never seen before. -/
theorem C10_unknown_type_noop (ed : EtcdDump) (db : ProtoDb)
    (key label dataType plugStat : String) (params : List String)
    (labelFilter typeFilter : List String) (tr : Trace)
    (hP : ParseKey key = (label, dataType, params, plugStat))
    (hl : isItemAllowed label labelFilter = true)
    (hns : plugStat ≠ statusMarker)
    (htf : isItemAllowed dataType typeFilter = true)
    (hdt : dataType ∉ knownMarkers) :
    ReadDataFromDb ed db key labelFilter typeFilter tr = ⟨ed, true, none, tr⟩ := by
  simp only [knownMarkers, List.mem_cons, List.mem_singleton, not_or] at hdt
  obtain ⟨h1, h2, h3, h4, h5, h6, h7, h8, h9⟩ := hdt
  simp [ReadDataFromDb, hP, hl, hns, htf, h1, h2, h3, h4, h5, h6, h7, h8, h9]

/-- C10 witness: a key with an unrecognized record-type tag, passing the
empty filters, leaves the snapshot untouched and issues no store get. -/
theorem C10_witness :
    ParseKey "agent9/weird-type/x" = ("agent9", "", ["x"], "")
    ∧ ("" : String) ∉ knownMarkers
    ∧ ReadDataFromDb [] sampleDb "agent9/weird-type/x" [] [] ⟨[], []⟩
        = ⟨[], true, none, ⟨[], []⟩⟩ :=
  ⟨by decide, by decide,
   C10_unknown_type_noop [] sampleDb "agent9/weird-type/x" "agent9" "" ""
     ["x"] [] [] ⟨[], []⟩ (by decide) (by decide) (by decide) (by decide)
     (by decide)⟩

/-- C1: for one label and one sub-entity name, ingesting a configuration key
and then a state key (both found and successfully decoded) yields an
interface entry with both the Config and State slots populated, each slot
carrying its own revision and key; ingesting only one of the two keys leaves
the sibling slot exactly as it was; and ingesting the two keys in either
order produces the same dump. -/
theorem C1_config_state_merge_commutes (ed : EtcdDump) (db : ProtoDb)
    (tr1 tr2 : Trace) (kc ks label name : String) (bc bs : Bytes)
    (rc rs : Int) (pc ps : Payload)
    (hkc : ParseKey kc = (label, ifConfigMarker, [name], ""))
    (hks : ParseKey ks = (label, ifStateMarker, [name], ""))
    (hgc : db.rawGet kc = ⟨bc, true, rc, none⟩)
    (hgs : db.rawGet ks = ⟨bs, true, rs, none⟩)
    (hdc : db.decode MsgShape.ifCfg bc = Except.ok pc)
    (hds : db.decode MsgShape.ifSt bs = Except.ok ps) :
    (alGet (alGetD (ReadDataFromDb
          (ReadDataFromDb ed db kc [] [] tr1).dump db ks [] [] tr2).dump
        label newVppDataRecord).interfaces name =
      some ⟨some ⟨⟨rc, kc⟩, pc⟩, some ⟨⟨rs, ks⟩, ps⟩⟩)
    ∧ ((alGetD (alGetD (ReadDataFromDb ed db kc [] [] tr1).dump
          label newVppDataRecord).interfaces name ⟨none, none⟩).state
        = (alGetD (alGetD ed label newVppDataRecord).interfaces name
            ⟨none, none⟩).state)
    ∧ ((alGetD (alGetD (ReadDataFromDb ed db ks [] [] tr1).dump
          label newVppDataRecord).interfaces name ⟨none, none⟩).config
        = (alGetD (alGetD ed label newVppDataRecord).interfaces name
            ⟨none, none⟩).config)
    ∧ ((ReadDataFromDb (ReadDataFromDb ed db ks [] [] tr1).dump
          db kc [] [] tr2).dump
        = (ReadDataFromDb (ReadDataFromDb ed db kc [] [] tr1).dump
            db ks [] [] tr2).dump) := by
  refine ⟨?_, ?_, ?_, ?_⟩
  · simp [ReadDataFromDb, readIfConfigFromDb, readIfStateFromDb, readDataFromDb,
      getValueProtoInternal, isItemAllowed, hkc, hks, hgc, hgs, hdc, hds,
      statusMarker, ifConfigMarker, ifStateMarker, ifErrorMarker, bdConfigMarker,
      bdStateMarker, bdErrorMarker, fibMarker, xconnectMarker, routesMarker,
      alGetD_alPut_self, alPut_alPut_self, alGet_alPut_self]
  · simp [ReadDataFromDb, readIfConfigFromDb, readDataFromDb,
      getValueProtoInternal, isItemAllowed, hkc, hgc, hdc,
      statusMarker, ifConfigMarker, ifStateMarker, ifErrorMarker, bdConfigMarker,
      bdStateMarker, bdErrorMarker, fibMarker, xconnectMarker, routesMarker,
      alGetD_alPut_self, alPut_alPut_self, alGet_alPut_self]
  · simp [ReadDataFromDb, readIfStateFromDb, readDataFromDb,
      getValueProtoInternal, isItemAllowed, hks, hgs, hds,
      statusMarker, ifConfigMarker, ifStateMarker, ifErrorMarker, bdConfigMarker,
      bdStateMarker, bdErrorMarker, fibMarker, xconnectMarker, routesMarker,
      alGetD_alPut_self, alPut_alPut_self, alGet_alPut_self]
  · simp [ReadDataFromDb, readIfConfigFromDb, readIfStateFromDb, readDataFromDb,
      getValueProtoInternal, isItemAllowed, hkc, hks, hgc, hgs, hdc, hds,
      statusMarker, ifConfigMarker, ifStateMarker, ifErrorMarker, bdConfigMarker,
      bdStateMarker, bdErrorMarker, fibMarker, xconnectMarker, routesMarker,
      alGetD_alPut_self, alPut_alPut_self, alGet_alPut_self]

/-- C1 witness: concrete configuration and state keys for agent1/eth0 in the
sample store; ingesting both populates both slots with their own revisions,
single ingests keep the sibling slot, and the two orders agree on the dump. -/
theorem C1_witness :
    ParseKey "agent1/if-cfg/eth0" = ("agent1", ifConfigMarker, ["eth0"], "")
    ∧ ParseKey "agent1/if-state/eth0" = ("agent1", ifStateMarker, ["eth0"], "")
    ∧ sampleDb.rawGet "agent1/if-cfg/eth0" = ⟨[7], true, 42, none⟩
    ∧ sampleDb.rawGet "agent1/if-state/eth0" = ⟨[8], true, 43, none⟩
    ∧ ((alGet (alGetD (ReadDataFromDb
          (ReadDataFromDb [] sampleDb "agent1/if-cfg/eth0" [] [] ⟨[], []⟩).dump
          sampleDb "agent1/if-state/eth0" [] [] ⟨[], []⟩).dump
        "agent1" newVppDataRecord).interfaces "eth0" =
      some ⟨some ⟨⟨42, "agent1/if-cfg/eth0"⟩, 7⟩,
            some ⟨⟨43, "agent1/if-state/eth0"⟩, 8⟩⟩)
    ∧ ((alGetD (alGetD (ReadDataFromDb [] sampleDb "agent1/if-cfg/eth0" [] []
          ⟨[], []⟩).dump "agent1" newVppDataRecord).interfaces "eth0"
          ⟨none, none⟩).state
        = (alGetD (alGetD [] "agent1" newVppDataRecord).interfaces "eth0"
            ⟨none, none⟩).state)
    ∧ ((alGetD (alGetD (ReadDataFromDb [] sampleDb "agent1/if-state/eth0" [] []
          ⟨[], []⟩).dump "agent1" newVppDataRecord).interfaces "eth0"
          ⟨none, none⟩).config
        = (alGetD (alGetD [] "agent1" newVppDataRecord).interfaces "eth0"
            ⟨none, none⟩).config)
    ∧ ((ReadDataFromDb (ReadDataFromDb [] sampleDb "agent1/if-state/eth0" [] []
          ⟨[], []⟩).dump sampleDb "agent1/if-cfg/eth0" [] [] ⟨[], []⟩).dump
        = (ReadDataFromDb (ReadDataFromDb [] sampleDb "agent1/if-cfg/eth0" [] []
            ⟨[], []⟩).dump sampleDb "agent1/if-state/eth0" [] [] ⟨[], []⟩).dump)) :=
  ⟨by decide, by decide, by decide, by decide,
   C1_config_state_merge_commutes [] sampleDb ⟨[], []⟩ ⟨[], []⟩
     "agent1/if-cfg/eth0" "agent1/if-state/eth0" "agent1" "eth0"
     [7] [8] 42 43 7 8 (by decide) (by decide) (by decide) (by decide)
     rfl rfl⟩

/-- C7: ingesting two interface error-record keys for the same label and the
same leading parameter (both found and successfully decoded) appends the two
decoded items to that interface error list in ingestion order, keeping every
previously accumulated item and never deduplicating; likewise for two
bridge-domain error-record keys. -/
theorem C7_error_records_append (ed : EtcdDump) (db : ProtoDb)
    (tr1 tr2 tr3 tr4 : Trace) (k1 k2 k3 k4 label p0 q0 : String)
    (rest1 rest2 rest3 rest4 : List String) (b1 b2 b3 b4 : Bytes)
    (r1 r2 r3 r4 : Int) (e1 e2 e3 e4 : Payload)
    (hk1 : ParseKey k1 = (label, ifErrorMarker, p0 :: rest1, ""))
    (hk2 : ParseKey k2 = (label, ifErrorMarker, p0 :: rest2, ""))
    (hk3 : ParseKey k3 = (label, bdErrorMarker, q0 :: rest3, ""))
    (hk4 : ParseKey k4 = (label, bdErrorMarker, q0 :: rest4, ""))
    (hg1 : db.rawGet k1 = ⟨b1, true, r1, none⟩)
    (hg2 : db.rawGet k2 = ⟨b2, true, r2, none⟩)
    (hg3 : db.rawGet k3 = ⟨b3, true, r3, none⟩)
    (hg4 : db.rawGet k4 = ⟨b4, true, r4, none⟩)
    (hd1 : db.decode MsgShape.ifErr b1 = Except.ok e1)
    (hd2 : db.decode MsgShape.ifErr b2 = Except.ok e2)
    (hd3 : db.decode MsgShape.bdErr b3 = Except.ok e3)
    (hd4 : db.decode MsgShape.bdErr b4 = Except.ok e4) :
    ((alGetD (alGetD (ReadDataFromDb
          (ReadDataFromDb ed db k1 [] [] tr1).dump db k2 [] [] tr2).dump
        label newVppDataRecord).interfaceErrors p0 ⟨⟨0, ""⟩, []⟩).interfaceErrorList
      = (alGetD (alGetD ed label newVppDataRecord).interfaceErrors p0
          ⟨⟨0, ""⟩, []⟩).interfaceErrorList ++ [e1, e2])
    ∧ ((alGetD (alGetD (ReadDataFromDb
          (ReadDataFromDb ed db k3 [] [] tr3).dump db k4 [] [] tr4).dump
        label newVppDataRecord).bridgeDomainErrors q0 ⟨⟨0, ""⟩, []⟩).bdErrorList
      = (alGetD (alGetD ed label newVppDataRecord).bridgeDomainErrors q0
          ⟨⟨0, ""⟩, []⟩).bdErrorList ++ [e3, e4]) := by
  constructor
  · simp [ReadDataFromDb, readInterfaceErrorFromDb, readDataFromDb,
      getValueProtoInternal, isItemAllowed, hk1, hk2, hg1, hg2, hd1, hd2,
      statusMarker, ifConfigMarker, ifStateMarker, ifErrorMarker, bdConfigMarker,
      bdStateMarker, bdErrorMarker, fibMarker, xconnectMarker, routesMarker,
      alGetD_alPut_self, alPut_alPut_self, alGet_alPut_self]
  · simp [ReadDataFromDb, readBdErrorFromDb, readDataFromDb,
      getValueProtoInternal, isItemAllowed, hk3, hk4, hg3, hg4, hd3, hd4,
      statusMarker, ifConfigMarker, ifStateMarker, ifErrorMarker, bdConfigMarker,
      bdStateMarker, bdErrorMarker, fibMarker, xconnectMarker, routesMarker,
      alGetD_alPut_self, alPut_alPut_self, alGet_alPut_self]

/-- C7 witness: two distinct interface error keys and two distinct
bridge-domain error keys of the sample store, sharing label agent1 and
leading parameters eth0 and bd1; each pair appends its two decoded payloads
in ingestion order to the respective error list. -/
theorem C7_witness :
    ParseKey "agent1/if-error/eth0/1" = ("agent1", ifErrorMarker, ["eth0", "1"], "")
    ∧ ParseKey "agent1/bd-error/bd1/2" = ("agent1", bdErrorMarker, ["bd1", "2"], "")
    ∧ ((alGetD (alGetD (ReadDataFromDb
          (ReadDataFromDb [] sampleDb "agent1/if-error/eth0/1" [] [] ⟨[], []⟩).dump
          sampleDb "agent1/if-error/eth0/2" [] [] ⟨[], []⟩).dump
        "agent1" newVppDataRecord).interfaceErrors "eth0"
          ⟨⟨0, ""⟩, []⟩).interfaceErrorList
      = (alGetD (alGetD [] "agent1" newVppDataRecord).interfaceErrors "eth0"
          ⟨⟨0, ""⟩, []⟩).interfaceErrorList ++ [9, 10])
    ∧ ((alGetD (alGetD (ReadDataFromDb
          (ReadDataFromDb [] sampleDb "agent1/bd-error/bd1/1" [] [] ⟨[], []⟩).dump
          sampleDb "agent1/bd-error/bd1/2" [] [] ⟨[], []⟩).dump
        "agent1" newVppDataRecord).bridgeDomainErrors "bd1"
          ⟨⟨0, ""⟩, []⟩).bdErrorList
      = (alGetD (alGetD [] "agent1" newVppDataRecord).bridgeDomainErrors "bd1"
          ⟨⟨0, ""⟩, []⟩).bdErrorList ++ [11, 12]) :=
  ⟨by decide, by decide,
   (C7_error_records_append [] sampleDb ⟨[], []⟩ ⟨[], []⟩ ⟨[], []⟩ ⟨[], []⟩
     "agent1/if-error/eth0/1" "agent1/if-error/eth0/2"
     "agent1/bd-error/bd1/1" "agent1/bd-error/bd1/2"
     "agent1" "eth0" "bd1" ["1"] ["2"] ["1"] ["2"]
     [9] [10] [11] [12] 44 45 46 47 9 10 11 12
     (by decide) (by decide) (by decide) (by decide)
     (by decide) (by decide) (by decide) (by decide)
     rfl rfl rfl rfl).1,
   (C7_error_records_append [] sampleDb ⟨[], []⟩ ⟨[], []⟩ ⟨[], []⟩ ⟨[], []⟩
     "agent1/if-error/eth0/1" "agent1/if-error/eth0/2"
     "agent1/bd-error/bd1/1" "agent1/bd-error/bd1/2"
     "agent1" "eth0" "bd1" ["1"] ["2"] ["1"] ["2"]
     [9] [10] [11] [12] 44 45 46 47 9 10 11 12
     (by decide) (by decide) (by decide) (by decide)
     (by decide) (by decide) (by decide) (by decide)
     rfl rfl rfl rfl).2⟩

/-- C9: a status-namespace key that passes the label filter and whose value
is found and decodes is stored in the bundle's Status collection under the
first key parameter when one exists and under the default identifier Agent
when the key carries no parameters; either way the read happens and no error
is returned, so a zero-parameter status key is not treated as malformed. -/
theorem C9_status_stored_by_id (ed : EtcdDump) (db : ProtoDb) (tr : Trace)
    (key label dataType : String) (params : List String)
    (labelFilter typeFilter : List String) (b : Bytes) (rev : Int) (p : Payload)
    (hP : ParseKey key = (label, dataType, params, statusMarker))
    (hl : isItemAllowed label labelFilter = true)
    (hg : db.rawGet key = ⟨b, true, rev, none⟩)
    (hd : db.decode MsgShape.agentSts b = Except.ok p) :
    (ReadDataFromDb ed db key labelFilter typeFilter tr).found = true
    ∧ (ReadDataFromDb ed db key labelFilter typeFilter tr).err = none
    ∧ alGet (alGetD (ReadDataFromDb ed db key labelFilter typeFilter tr).dump
        label newVppDataRecord).status
        (match params with | [] => stsIDAgent | p0 :: _ => p0)
      = some ⟨⟨rev, key⟩, p⟩
    ∧ (ReadDataFromDb ed db key labelFilter typeFilter tr).tr.gets
        = tr.gets ++ [key] := by
  rcases params with _ | ⟨p0, rest⟩ <;>
    simp [ReadDataFromDb, hP, hl, readStatusFromDb, readDataFromDb,
      getValueProtoInternal, hg, hd, alGetD_alPut_self, alGet_alPut_self]

/-- C9 witness: a status key with one parameter stores under that parameter,
and a zero-parameter status key stores under the default identifier Agent,
both without error. -/
theorem C9_witness :
    ParseKey "agent1/status-check/north" = ("agent1", "", ["north"], statusMarker)
    ∧ ParseKey "agent1/status-check" = ("agent1", "", [], statusMarker)
    ∧ (alGet (alGetD (ReadDataFromDb [] sampleDb "agent1/status-check/north"
          [] [] ⟨[], []⟩).dump "agent1" newVppDataRecord).status
        (match (["north"] : List String) with | [] => stsIDAgent | p0 :: _ => p0)
      = some ⟨⟨48, "agent1/status-check/north"⟩, 13⟩)
    ∧ (alGet (alGetD (ReadDataFromDb [] sampleDb "agent1/status-check"
          [] [] ⟨[], []⟩).dump "agent1" newVppDataRecord).status
        (match ([] : List String) with | [] => stsIDAgent | p0 :: _ => p0)
      = some ⟨⟨49, "agent1/status-check"⟩, 14⟩) :=
  ⟨by decide, by decide,
   (C9_status_stored_by_id [] sampleDb ⟨[], []⟩ "agent1/status-check/north"
     "agent1" "" ["north"] [] [] [13] 48 13
     (by decide) (by decide) (by decide) rfl).2.2.1,
   (C9_status_stored_by_id [] sampleDb ⟨[], []⟩ "agent1/status-check"
     "agent1" "" [] [] [] [14] 49 14
     (by decide) (by decide) (by decide) rfl).2.2.1⟩

/-- C4: for a key absent from the store, the typed get returns found=false
with no error and leaves the target message unfilled; and ingest of that
key, when it passes the filters and reaches a decoder (status namespace, or
a known marker with the required parameter, or the parameterless routes
decoder), returns matched=true with no error, leaves every label's
effective bundle unchanged, and prints the not-found warning. -/
theorem C4_absent_key_not_found (ed : EtcdDump) (db : ProtoDb)
    (key label dataType plugStat : String) (params : List String)
    (labelFilter typeFilter : List String) (tr : Trace) (b0 : Bytes) (r0 : Int)
    (hP : ParseKey key = (label, dataType, params, plugStat))
    (hl : isItemAllowed label labelFilter = true)
    (hg : db.rawGet key = ⟨b0, false, r0, none⟩)
    (hdisp : plugStat = statusMarker ∨
      (plugStat ≠ statusMarker ∧ isItemAllowed dataType typeFilter = true ∧
        (dataType = routesMarker ∨
          ((dataType = ifConfigMarker ∨ dataType = ifStateMarker ∨
            dataType = ifErrorMarker ∨ dataType = bdConfigMarker ∨
            dataType = bdStateMarker ∨ dataType = bdErrorMarker ∨
            dataType = fibMarker ∨ dataType = xconnectMarker) ∧ params ≠ [])))) :
    (∀ shape obj gets, getValueProtoInternal db shape key obj gets
        = (⟨obj, false, 0, none⟩, gets ++ [key]))
    ∧ (ReadDataFromDb ed db key labelFilter typeFilter tr).found = true
    ∧ (ReadDataFromDb ed db key labelFilter typeFilter tr).err = none
    ∧ (∀ l, alGetD (ReadDataFromDb ed db key labelFilter typeFilter tr).dump l
          newVppDataRecord = alGetD ed l newVppDataRecord)
    ∧ (ReadDataFromDb ed db key labelFilter typeFilter tr).tr.warnings
        = tr.warnings ++ ["WARNING: data for Key " ++ key ++ " not found"] := by
  constructor
  · intro shape obj gets
    simp [getValueProtoInternal, hg]
  · have hmain : ReadDataFromDb ed db key labelFilter typeFilter tr =
        ⟨alPut ed label (alGetD ed label newVppDataRecord), true, none,
         ⟨tr.gets ++ [key],
          tr.warnings ++ ["WARNING: data for Key " ++ key ++ " not found"]⟩⟩ := by
      rcases hdisp with hst | ⟨hns, htf, hcase⟩
      · subst hst
        simp [ReadDataFromDb, hP, hl, readStatusFromDb, readDataFromDb,
          getValueProtoInternal, hg]
      · simp only [statusMarker] at hns
        rcases hcase with hrt | ⟨hm, hpne⟩
        · subst hrt
          simp only [routesMarker] at htf
          simp [ReadDataFromDb, hP, hl, hns, htf, readRoutesFromDb, readDataFromDb,
            getValueProtoInternal, hg,
            statusMarker, ifConfigMarker, ifStateMarker, ifErrorMarker,
            bdConfigMarker, bdStateMarker, bdErrorMarker, fibMarker,
            xconnectMarker, routesMarker]
        · rcases params with _ | ⟨p0, rest⟩
          · exact absurd rfl hpne
          · rcases hm with h | h | h | h | h | h | h | h <;> subst h <;>
              simp only [ifConfigMarker, ifStateMarker, ifErrorMarker,
                bdConfigMarker, bdStateMarker, bdErrorMarker, fibMarker,
                xconnectMarker] at htf <;>
              simp [ReadDataFromDb, hP, hl, hns, htf,
                readIfConfigFromDb, readIfStateFromDb, readInterfaceErrorFromDb,
                readBdConfigFromDb, readBdStateFromDb, readBdErrorFromDb,
                readFibFromDb, readXconnectFromDb, readDataFromDb,
                getValueProtoInternal, hg,
                statusMarker, ifConfigMarker, ifStateMarker, ifErrorMarker,
                bdConfigMarker, bdStateMarker, bdErrorMarker, fibMarker,
                xconnectMarker, routesMarker]
    rw [hmain]
    exact ⟨rfl, rfl, fun l => alGetD_alPut_keep ed label l newVppDataRecord, rfl⟩

/-- C4 witness: the key agent1/if-cfg/geth9 is absent from the sample store;
get returns found=false without error and without filling the target, and
ingest returns matched=true, changes no effective bundle, and prints the
not-found warning. -/
theorem C4_witness :
    ParseKey "agent1/if-cfg/geth9" = ("agent1", ifConfigMarker, ["geth9"], "")
    ∧ sampleDb.rawGet "agent1/if-cfg/geth9" = ⟨[], false, 0, none⟩
    ∧ ((∀ shape obj gets, getValueProtoInternal sampleDb shape
          "agent1/if-cfg/geth9" obj gets
          = (⟨obj, false, 0, none⟩, gets ++ ["agent1/if-cfg/geth9"]))
      ∧ (ReadDataFromDb [] sampleDb "agent1/if-cfg/geth9" [] [] ⟨[], []⟩).found = true
      ∧ (ReadDataFromDb [] sampleDb "agent1/if-cfg/geth9" [] [] ⟨[], []⟩).err = none
      ∧ (∀ l, alGetD (ReadDataFromDb [] sampleDb "agent1/if-cfg/geth9" [] []
            ⟨[], []⟩).dump l newVppDataRecord = alGetD [] l newVppDataRecord)
      ∧ (ReadDataFromDb [] sampleDb "agent1/if-cfg/geth9" [] [] ⟨[], []⟩).tr.warnings
          = (⟨[], []⟩ : Trace).warnings ++
            ["WARNING: data for Key " ++ "agent1/if-cfg/geth9" ++ " not found"]) :=
  ⟨by decide, by decide,
   C4_absent_key_not_found [] sampleDb "agent1/if-cfg/geth9" "agent1"
     ifConfigMarker "" ["geth9"] [] [] ⟨[], []⟩ [] 0
     (by decide) (by decide) (by decide) (by decide)⟩

/-- C8: a key that classifies with zero parameters while its record-type tag
routes to a decoder requiring at least one parameter is treated as malformed
input: a warning is reported, no store get is issued, every label's
effective bundle is left unchanged, and the function returns matched=true
with no error. -/
theorem C8_zero_param_key_skipped (ed : EtcdDump) (db : ProtoDb)
    (key label dataType plugStat : String)
    (labelFilter typeFilter : List String) (tr : Trace)
    (hP : ParseKey key = (label, dataType, [], plugStat))
    (hl : isItemAllowed label labelFilter = true)
    (hns : plugStat ≠ statusMarker)
    (htf : isItemAllowed dataType typeFilter = true)
    (hm : dataType = ifConfigMarker ∨ dataType = ifStateMarker ∨
      dataType = ifErrorMarker ∨ dataType = bdConfigMarker ∨
      dataType = bdStateMarker ∨ dataType = bdErrorMarker ∨
      dataType = fibMarker ∨ dataType = xconnectMarker) :
    (ReadDataFromDb ed db key labelFilter typeFilter tr).found = true
    ∧ (ReadDataFromDb ed db key labelFilter typeFilter tr).err = none
    ∧ (ReadDataFromDb ed db key labelFilter typeFilter tr).tr.gets = tr.gets
    ∧ (∃ w, (ReadDataFromDb ed db key labelFilter typeFilter tr).tr.warnings
        = tr.warnings ++ [w])
    ∧ (∀ l, alGetD (ReadDataFromDb ed db key labelFilter typeFilter tr).dump l
        newVppDataRecord = alGetD ed l newVppDataRecord) := by
  simp only [statusMarker] at hns
  have hmain : ∃ w, ReadDataFromDb ed db key labelFilter typeFilter tr =
      ⟨alPut ed label (alGetD ed label newVppDataRecord), true, none,
       ⟨tr.gets, tr.warnings ++ [w]⟩⟩ := by
    rcases hm with h | h | h | h | h | h | h | h <;> subst h <;>
      simp only [ifConfigMarker, ifStateMarker, ifErrorMarker, bdConfigMarker,
        bdStateMarker, bdErrorMarker, fibMarker, xconnectMarker] at htf
    · refine ⟨"WARNING: Invalid interface Key " ++ key, ?_⟩
      simp [ReadDataFromDb, hP, hl, hns, htf, readIfConfigFromDb,
        statusMarker, ifConfigMarker, ifStateMarker, ifErrorMarker,
        bdConfigMarker, bdStateMarker, bdErrorMarker, fibMarker,
        xconnectMarker, routesMarker]
    · refine ⟨"WARNING: Invalid ifstate Key " ++ key, ?_⟩
      simp [ReadDataFromDb, hP, hl, hns, htf, readIfStateFromDb,
        statusMarker, ifConfigMarker, ifStateMarker, ifErrorMarker,
        bdConfigMarker, bdStateMarker, bdErrorMarker, fibMarker,
        xconnectMarker, routesMarker]
    · refine ⟨"WARNING: Invalid interface Key " ++ key, ?_⟩
      simp [ReadDataFromDb, hP, hl, hns, htf, readInterfaceErrorFromDb,
        statusMarker, ifConfigMarker, ifStateMarker, ifErrorMarker,
        bdConfigMarker, bdStateMarker, bdErrorMarker, fibMarker,
        xconnectMarker, routesMarker]
    · refine ⟨"WARNING: Invalid bridge domain config Key " ++ key, ?_⟩
      simp [ReadDataFromDb, hP, hl, hns, htf, readBdConfigFromDb,
        statusMarker, ifConfigMarker, ifStateMarker, ifErrorMarker,
        bdConfigMarker, bdStateMarker, bdErrorMarker, fibMarker,
        xconnectMarker, routesMarker]
    · refine ⟨"WARNING: Invalid bridge domain state Key " ++ key, ?_⟩
      simp [ReadDataFromDb, hP, hl, hns, htf, readBdStateFromDb,
        statusMarker, ifConfigMarker, ifStateMarker, ifErrorMarker,
        bdConfigMarker, bdStateMarker, bdErrorMarker, fibMarker,
        xconnectMarker, routesMarker]
    · refine ⟨"WARNING: Invalid interface Key " ++ key, ?_⟩
      simp [ReadDataFromDb, hP, hl, hns, htf, readBdErrorFromDb,
        statusMarker, ifConfigMarker, ifStateMarker, ifErrorMarker,
        bdConfigMarker, bdStateMarker, bdErrorMarker, fibMarker,
        xconnectMarker, routesMarker]
    · refine ⟨"WARNING: Invalid FIB Key " ++ key, ?_⟩
      simp [ReadDataFromDb, hP, hl, hns, htf, readFibFromDb,
        statusMarker, ifConfigMarker, ifStateMarker, ifErrorMarker,
        bdConfigMarker, bdStateMarker, bdErrorMarker, fibMarker,
        xconnectMarker, routesMarker]
    · refine ⟨"WARNING: Invalid cross-connect Key " ++ key, ?_⟩
      simp [ReadDataFromDb, hP, hl, hns, htf, readXconnectFromDb,
        statusMarker, ifConfigMarker, ifStateMarker, ifErrorMarker,
        bdConfigMarker, bdStateMarker, bdErrorMarker, fibMarker,
        xconnectMarker, routesMarker]
  obtain ⟨w, hmain⟩ := hmain
  rw [hmain]
  exact ⟨rfl, rfl, rfl, ⟨w, rfl⟩,
    fun l => alGetD_alPut_keep ed label l newVppDataRecord⟩

/-- C8 witness: the key agent1/if-cfg classifies with zero parameters and
routes to the interface configuration decoder; ingest reports it, issues no
store get, leaves every effective bundle unchanged, and returns
matched=true with no error. -/
theorem C8_witness :
    ParseKey "agent1/if-cfg" = ("agent1", ifConfigMarker, [], "")
    ∧ ((ReadDataFromDb [] sampleDb "agent1/if-cfg" [] [] ⟨[], []⟩).found = true
      ∧ (ReadDataFromDb [] sampleDb "agent1/if-cfg" [] [] ⟨[], []⟩).err = none
      ∧ (ReadDataFromDb [] sampleDb "agent1/if-cfg" [] [] ⟨[], []⟩).tr.gets
          = (⟨[], []⟩ : Trace).gets
      ∧ (∃ w, (ReadDataFromDb [] sampleDb "agent1/if-cfg" [] [] ⟨[], []⟩).tr.warnings
          = (⟨[], []⟩ : Trace).warnings ++ [w])
      ∧ (∀ l, alGetD (ReadDataFromDb [] sampleDb "agent1/if-cfg" [] []
            ⟨[], []⟩).dump l newVppDataRecord = alGetD [] l newVppDataRecord)) :=
  ⟨by decide,
   C8_zero_param_key_skipped [] sampleDb "agent1/if-cfg" "agent1"
     ifConfigMarker "" [] [] ⟨[], []⟩
     (by decide) (by decide) (by decide) (by decide) (by decide)⟩

/-- C3 amended: when the bytes stored under a key fail to unmarshal, the
slot stays unchanged — every label's effective bundle is as before and no
warning is printed — but the failure is not a silent per-key skip: the typed
get returns it as an error, readDataFromDb wraps it into a database read
error, and ReadDataFromDb surfaces that error to the caller exactly as it
would a store-level failure, so the pass is aborted rather than continued. -/
theorem C3_decode_failure_propagates (ed : EtcdDump) (db : ProtoDb)
    (key label dataType plugStat e : String) (params : List String)
    (labelFilter typeFilter : List String) (tr : Trace) (b0 : Bytes) (r0 : Int)
    (hP : ParseKey key = (label, dataType, params, plugStat))
    (hl : isItemAllowed label labelFilter = true)
    (hg : db.rawGet key = ⟨b0, true, r0, none⟩)
    (hd : ∀ shape, db.decode shape b0 = Except.error e)
    (hdisp : plugStat = statusMarker ∨
      (plugStat ≠ statusMarker ∧ isItemAllowed dataType typeFilter = true ∧
        (dataType = routesMarker ∨
          ((dataType = ifConfigMarker ∨ dataType = ifStateMarker ∨
            dataType = ifErrorMarker ∨ dataType = bdConfigMarker ∨
            dataType = bdStateMarker ∨ dataType = bdErrorMarker ∨
            dataType = fibMarker ∨ dataType = xconnectMarker) ∧ params ≠ [])))) :
    (∀ shape obj gets, getValueProtoInternal db shape key obj gets
        = (⟨obj, false, 0, some e⟩, gets ++ [key]))
    ∧ (ReadDataFromDb ed db key labelFilter typeFilter tr).found = true
    ∧ (ReadDataFromDb ed db key labelFilter typeFilter tr).err
        = some ("Could not read from database, Key:" ++ key ++ ", error" ++ e)
    ∧ (∀ l, alGetD (ReadDataFromDb ed db key labelFilter typeFilter tr).dump l
          newVppDataRecord = alGetD ed l newVppDataRecord)
    ∧ (ReadDataFromDb ed db key labelFilter typeFilter tr).tr.warnings
        = tr.warnings := by
  constructor
  · intro shape obj gets
    simp [getValueProtoInternal, hg, hd]
  · have hmain : ReadDataFromDb ed db key labelFilter typeFilter tr =
        ⟨alPut ed label (alGetD ed label newVppDataRecord), true,
         some ("Could not read from database, Key:" ++ key ++ ", error" ++ e),
         ⟨tr.gets ++ [key], tr.warnings⟩⟩ := by
      rcases hdisp with hst | ⟨hns, htf, hcase⟩
      · subst hst
        simp [ReadDataFromDb, hP, hl, readStatusFromDb, readDataFromDb,
          getValueProtoInternal, hg, hd]
      · simp only [statusMarker] at hns
        rcases hcase with hrt | ⟨hm, hpne⟩
        · subst hrt
          simp only [routesMarker] at htf
          simp [ReadDataFromDb, hP, hl, hns, htf, readRoutesFromDb, readDataFromDb,
            getValueProtoInternal, hg, hd,
            statusMarker, ifConfigMarker, ifStateMarker, ifErrorMarker,
            bdConfigMarker, bdStateMarker, bdErrorMarker, fibMarker,
            xconnectMarker, routesMarker]
        · rcases params with _ | ⟨p0, rest⟩
          · exact absurd rfl hpne
          · rcases hm with h | h | h | h | h | h | h | h <;> subst h <;>
              simp only [ifConfigMarker, ifStateMarker, ifErrorMarker,
                bdConfigMarker, bdStateMarker, bdErrorMarker, fibMarker,
                xconnectMarker] at htf <;>
              simp [ReadDataFromDb, hP, hl, hns, htf,
                readIfConfigFromDb, readIfStateFromDb, readInterfaceErrorFromDb,
                readBdConfigFromDb, readBdStateFromDb, readBdErrorFromDb,
                readFibFromDb, readXconnectFromDb, readDataFromDb,
                getValueProtoInternal, hg, hd,
                statusMarker, ifConfigMarker, ifStateMarker, ifErrorMarker,
                bdConfigMarker, bdStateMarker, bdErrorMarker, fibMarker,
                xconnectMarker, routesMarker]
    rw [hmain]
    exact ⟨rfl, rfl, fun l => alGetD_alPut_keep ed label l newVppDataRecord, rfl⟩

/-- C3 witness: in the store whose bytes never unmarshal, ingesting
agent1/if-cfg/eth0 leaves every effective bundle unchanged and prints no
warning, yet surfaces the wrapped decode failure as an error. -/
theorem C3_witness :
    ParseKey "agent1/if-cfg/eth0" = ("agent1", ifConfigMarker, ["eth0"], "")
    ∧ decodeFailDb.rawGet "agent1/if-cfg/eth0" = ⟨[3], true, 9, none⟩
    ∧ ((∀ shape obj gets, getValueProtoInternal decodeFailDb shape
          "agent1/if-cfg/eth0" obj gets
          = (⟨obj, false, 0, some "unmarshal failure"⟩,
             gets ++ ["agent1/if-cfg/eth0"]))
      ∧ (ReadDataFromDb [] decodeFailDb "agent1/if-cfg/eth0" [] [] ⟨[], []⟩).found
          = true
      ∧ (ReadDataFromDb [] decodeFailDb "agent1/if-cfg/eth0" [] [] ⟨[], []⟩).err
          = some ("Could not read from database, Key:" ++ "agent1/if-cfg/eth0"
              ++ ", error" ++ "unmarshal failure")
      ∧ (∀ l, alGetD (ReadDataFromDb [] decodeFailDb "agent1/if-cfg/eth0" [] []
            ⟨[], []⟩).dump l newVppDataRecord = alGetD [] l newVppDataRecord)
      ∧ (ReadDataFromDb [] decodeFailDb "agent1/if-cfg/eth0" [] [] ⟨[], []⟩).tr.warnings
          = (⟨[], []⟩ : Trace).warnings) :=
  ⟨by decide, by decide,
   C3_decode_failure_propagates [] decodeFailDb "agent1/if-cfg/eth0" "agent1"
     ifConfigMarker "" "unmarshal failure" ["eth0"] [] [] ⟨[], []⟩ [3] 9
     (by decide) (by decide) (by decide) (fun _ => rfl) (by decide)⟩
